import Mathlib

/-!
Verification of the Dataworks operational scripts.

This file shallowly embeds the parts of the repository that the checked
properties are about:

* `scripts/dataworks_client.py` — `build_spec`, `_flatten`, `_print_diff`,
  `_get_remote_spec`, `update_node`, `create_client`;
* `scripts/config_merger.py` — `_load_base_config`, `load_merged_node_config`;
* `scripts/clean_mc_tables.py` — the whitelist and the per-table decision of `main`;
* `scripts/process_project.py` — `process_project`;
* `scripts/publish_node.py` — `wait_for_deployment` and the poll constants;
* `scripts/deploy.py` — `get_env_or_fail` / `create_client`.

JSON documents are modelled by the inductive type `DW.Json` (numbers as
rationals, objects as association lists in insertion order, which is how
Python dictionaries behave).  External effects (SDK calls, the file system,
environment variables) are modelled by explicit oracle parameters, and the
Python standard-library `json.loads` that `_print_diff` applies to nested
`content` strings is a parameter `loads : String → Option DW.Json`
(`none` models a raised `JSONDecodeError`).
-/

namespace DW

/-- A JSON value: `null`, booleans, numbers (modelled as rationals),
strings, arrays, and objects as association lists in insertion order. -/
inductive Json where
  | null : Json
  | bool (b : Bool) : Json
  | num (q : ℚ) : Json
  | str (s : String) : Json
  | arr (elems : List Json) : Json
  | obj (fields : List (String × Json)) : Json

mutual

def decEqJ : (a b : Json) → Decidable (a = b)
  | .null, .null => .isTrue rfl
  | .bool x, .bool y =>
    match decEq x y with
    | .isTrue h => .isTrue (h ▸ rfl)
    | .isFalse h => .isFalse (fun e => h (by cases e; rfl))
  | .num x, .num y =>
    match decEq x y with
    | .isTrue h => .isTrue (h ▸ rfl)
    | .isFalse h => .isFalse (fun e => h (by cases e; rfl))
  | .str x, .str y =>
    match decEq x y with
    | .isTrue h => .isTrue (h ▸ rfl)
    | .isFalse h => .isFalse (fun e => h (by cases e; rfl))
  | .arr xs, .arr ys =>
    match decEqJL xs ys with
    | .isTrue h => .isTrue (h ▸ rfl)
    | .isFalse h => .isFalse (fun e => h (by cases e; rfl))
  | .obj xs, .obj ys =>
    match decEqJF xs ys with
    | .isTrue h => .isTrue (h ▸ rfl)
    | .isFalse h => .isFalse (fun e => h (by cases e; rfl))
  | .null, .bool _ => .isFalse nofun
  | .null, .num _ => .isFalse nofun
  | .null, .str _ => .isFalse nofun
  | .null, .arr _ => .isFalse nofun
  | .null, .obj _ => .isFalse nofun
  | .bool _, .null => .isFalse nofun
  | .bool _, .num _ => .isFalse nofun
  | .bool _, .str _ => .isFalse nofun
  | .bool _, .arr _ => .isFalse nofun
  | .bool _, .obj _ => .isFalse nofun
  | .num _, .null => .isFalse nofun
  | .num _, .bool _ => .isFalse nofun
  | .num _, .str _ => .isFalse nofun
  | .num _, .arr _ => .isFalse nofun
  | .num _, .obj _ => .isFalse nofun
  | .str _, .null => .isFalse nofun
  | .str _, .bool _ => .isFalse nofun
  | .str _, .num _ => .isFalse nofun
  | .str _, .arr _ => .isFalse nofun
  | .str _, .obj _ => .isFalse nofun
  | .arr _, .null => .isFalse nofun
  | .arr _, .bool _ => .isFalse nofun
  | .arr _, .num _ => .isFalse nofun
  | .arr _, .str _ => .isFalse nofun
  | .arr _, .obj _ => .isFalse nofun
  | .obj _, .null => .isFalse nofun
  | .obj _, .bool _ => .isFalse nofun
  | .obj _, .num _ => .isFalse nofun
  | .obj _, .str _ => .isFalse nofun
  | .obj _, .arr _ => .isFalse nofun

def decEqJL : (a b : List Json) → Decidable (a = b)
  | [], [] => .isTrue rfl
  | [], _ :: _ => .isFalse nofun
  | _ :: _, [] => .isFalse nofun
  | x :: xs, y :: ys =>
    match decEqJ x y, decEqJL xs ys with
    | .isTrue h1, .isTrue h2 => .isTrue (by rw [h1, h2])
    | .isFalse h1, _ => .isFalse (fun e => h1 (by cases e; rfl))
    | _, .isFalse h2 => .isFalse (fun e => h2 (by cases e; rfl))

def decEqJF : (a b : List (String × Json)) → Decidable (a = b)
  | [], [] => .isTrue rfl
  | [], _ :: _ => .isFalse nofun
  | _ :: _, [] => .isFalse nofun
  | (k1, v1) :: xs, (k2, v2) :: ys =>
    match decEq k1 k2, decEqJ v1 v2, decEqJF xs ys with
    | .isTrue h1, .isTrue h2, .isTrue h3 => .isTrue (by rw [h1, h2, h3])
    | .isFalse h1, _, _ => .isFalse (fun e => h1 (by cases e; rfl))
    | _, .isFalse h2, _ => .isFalse (fun e => h2 (by cases e; rfl))
    | _, _, .isFalse h3 => .isFalse (fun e => h3 (by cases e; rfl))

end

instance : DecidableEq Json := decEqJ

/-- Python truthiness of a JSON value: `None`, `False`, `0`, `""`, `[]`
and `{}` are falsy, everything else truthy.  Used by the source in
`if not remote_spec`, `if not task_global`, `if config.get("depends")`. -/
def truthy : Json → Bool
  | .null => false
  | .bool b => b
  | .num q => decide (q ≠ 0)
  | .str s => decide (s ≠ "")
  | .arr l => !l.isEmpty
  | .obj l => !l.isEmpty

/-- Lookup in a Python dictionary modelled as an association list in
insertion order where a later binding for a key overrides an earlier one
(the semantics of `dict.update` / item assignment). -/
def lastLookup (l : List (String × Json)) (k : String) : Option Json :=
  l.foldl (fun acc p => if p.1 = k then some p.2 else acc) none

/-- Model of `d.get(k, default)` on a Python dictionary. -/
def dictGetD (l : List (String × Json)) (k : String) (d : Json) : Json :=
  (lastLookup l k).getD d

/-- Model of `j.get(k, default)` where `j` is a JSON value expected to be an object
(the scripts only apply `.get` to values that are dictionaries). -/
def jsonGetD (j : Json) (k : String) (d : Json) : Json :=
  match j with
  | .obj fields => dictGetD fields k d
  | _ => d

/-- Model of `k in d` on a Python dictionary. -/
def hasKey (l : List (String × Json)) (k : String) : Bool :=
  (lastLookup l k).isSome

/-- Byte-wise (code-point) comparison of strings, the order Python
`sorted` uses on `str` keys.  Defined from scratch because it must
evaluate inside the kernel. -/
def charListLe : List Char → List Char → Bool
  | [], _ => true
  | _ :: _, [] => false
  | a :: as, b :: bs =>
    if a.toNat < b.toNat then true
    else if b.toNat < a.toNat then false
    else charListLe as bs

/-- Total order on path strings used by `sorted(all_keys)`. -/
def keyLe (a b : String) : Prop := charListLe a.data b.data = true

instance : DecidableRel keyLe := fun _ _ => instDecidableEqBool _ _

theorem charListLe_total (as bs : List Char) :
    charListLe as bs = true ∨ charListLe bs as = true := by
  induction as generalizing bs with
  | nil => left; rfl
  | cons a as ih =>
    cases bs with
    | nil => right; rfl
    | cons b bs =>
      by_cases hab : a.toNat < b.toNat
      · left; simp [charListLe, hab]
      · by_cases hba : b.toNat < a.toNat
        · right; simp [charListLe, hba]
        · rcases ih bs with h | h
          · left; simp [charListLe, hab, hba, h]
          · right; simp [charListLe, hab, hba, h]

theorem charListLe_trans {as bs cs : List Char}
    (h1 : charListLe as bs = true) (h2 : charListLe bs cs = true) :
    charListLe as cs = true := by
  induction as generalizing bs cs with
  | nil => rfl
  | cons a as ih =>
    cases bs with
    | nil => simp [charListLe] at h1
    | cons b bs =>
      cases cs with
      | nil => simp [charListLe] at h2
      | cons c cs =>
        simp only [charListLe] at h1 h2 ⊢
        split at h1
        case isTrue hab =>
          split at h2
          case isTrue hbc => simp [show a.toNat < c.toNat by omega]
          case isFalse hbc =>
            split at h2
            case isTrue => exact absurd h2 (by simp)
            case isFalse hcb => simp [show a.toNat < c.toNat by omega]
        case isFalse hab =>
          split at h1
          case isTrue => exact absurd h1 (by simp)
          case isFalse hba =>
            split at h2
            case isTrue hbc => simp [show a.toNat < c.toNat by omega]
            case isFalse hbc =>
              split at h2
              case isTrue => exact absurd h2 (by simp)
              case isFalse hcb =>
                simp only [show ¬a.toNat < c.toNat by omega, if_false,
                  show ¬c.toNat < a.toNat by omega]
                exact ih h1 h2

theorem charListLe_antisymm {as bs : List Char}
    (h1 : charListLe as bs = true) (h2 : charListLe bs as = true) :
    as = bs := by
  induction as generalizing bs with
  | nil =>
    cases bs with
    | nil => rfl
    | cons b bs => simp [charListLe] at h2
  | cons a as ih =>
    cases bs with
    | nil => simp [charListLe] at h1
    | cons b bs =>
      simp only [charListLe] at h1 h2
      split at h1
      case isTrue hab =>
        simp [show ¬b.toNat < a.toNat by omega, hab] at h2
      case isFalse hab =>
        split at h1
        case isTrue => exact absurd h1 (by simp)
        case isFalse hba =>
          have hn : a.toNat = b.toNat := by omega
          have hEq : a = b := Char.ext (UInt32.ext hn)
          subst hEq
          simp only [lt_self_iff_false, if_false] at h2
          rw [ih h1 h2]

instance : IsTotal String keyLe := ⟨fun a b => charListLe_total a.data b.data⟩

instance : IsTrans String keyLe := ⟨fun _ _ _ => charListLe_trans⟩

instance : IsAntisymm String keyLe :=
  ⟨fun a b h1 h2 => by
    cases a with
    | mk da => cases b with
      | mk db => exact congrArg String.mk (charListLe_antisymm h1 h2)⟩

/-- Model of `sorted(set(a) | set(b))`: the sorted list of the distinct keys of the
two flattened dictionaries. -/
def sortedUnion (a b : List String) : List String :=
  ((a ++ b).dedup).insertionSort keyLe

theorem sortedUnion_comm (a b : List String) :
    sortedUnion a b = sortedUnion b a := by
  apply List.eq_of_perm_of_sorted (r := keyLe)
  · exact (List.perm_insertionSort keyLe _).trans
      ((List.perm_append_comm.dedup).trans
        (List.perm_insertionSort keyLe _).symm)
  · exact List.sorted_insertionSort keyLe _
  · exact List.sorted_insertionSort keyLe _

/-- Python `s.endswith(pat)`, evaluated on code points. -/
def strEndsWith (s pat : String) : Bool :=
  decide (s.data.drop (s.data.length - pat.data.length) = pat.data)

mutual

/-- Function `_flatten` of `dataworks_client.py`: recursively expand a nested
dict/list into a flat path-to-leaf-value dictionary, e.g.
`{"spec": {"nodes": [{"name": "foo"}]}}` into `{"spec.nodes[0].name": "foo"}`.
The dictionary built by successive `items.update(...)` calls is modelled
as the concatenated association list (later bindings override earlier
ones via `lastLookup`). -/
def flatten : Json → String → List (String × Json)
  | .obj fields, pre => flattenFields fields pre
  | .arr elems, pre => flattenElems elems 0 pre
  | j, pre => [(pre, j)]

def flattenFields : List (String × Json) → String → List (String × Json)
  | [], _ => []
  | (k, v) :: rest, pre =>
    flatten v (if pre = "" then k else pre ++ "." ++ k) ++ flattenFields rest pre

def flattenElems : List Json → Nat → String → List (String × Json)
  | [], _, _ => []
  | v :: rest, i, pre =>
    flatten v (pre ++ "[" ++ toString i ++ "]") ++ flattenElems rest (i + 1) pre

end

/-- Model of `flat.get(key, "<missing>")` in `_print_diff`. -/
def flatGet (flat : List (String × Json)) (k : String) : Json :=
  (lastLookup flat k).getD (.str "<missing>")

def keysOf (flat : List (String × Json)) : List String := flat.map (·.1)

/-- One reported difference: dotted path, remote value, local value. -/
abbrev DiffEntry := String × Json × Json

/-- Model of `if local_val != remote_val: diffs.append((key, remote_val, local_val))`. -/
def plainDiff (k : String) (lv rv : Json) : List DiffEntry :=
  if lv = rv then [] else [(k, rv, lv)]

/-- The inner comparison of the two re-parsed `content` documents:
`for ik in sorted(set(inner_local) | set(inner_remote)): ...`,
appending `(f"{key} → {ik}", irv, iv)` for each differing inner key. -/
def innerDiff (k : String) (localInner remoteInner : Json) : List DiffEntry :=
  (sortedUnion (keysOf (flatten localInner "")) (keysOf (flatten remoteInner ""))).flatMap
    fun ik =>
      if flatGet (flatten localInner "") ik = flatGet (flatten remoteInner "") ik then []
      else [(k ++ " → " ++ ik, flatGet (flatten remoteInner "") ik,
             flatGet (flatten localInner "") ik)]

/-- The `.content` special case of `_print_diff`: when both values are
strings they are re-parsed as JSON (via the `loads` parameter; `none`
models a raised `json.JSONDecodeError`, which makes the code fall back to
the plain string comparison) and compared key by key. -/
def contentDiff (loads : String → Option Json) (k : String) :
    Json → Json → List DiffEntry
  | .str ls, .str rs =>
    match loads ls, loads rs with
    | some localInner, some remoteInner => innerDiff k localInner remoteInner
    | _, _ => plainDiff k (.str ls) (.str rs)
  | lv, rv => plainDiff k lv rv

/-- The comparison `_print_diff` performs for one key of the union of the
two flattened specs.  `lv`/`rv` are `local_flat.get(key, "<missing>")` /
`remote_flat.get(key, "<missing>")`. -/
def perKeyDiff (loads : String → Option Json) (k : String) (lv rv : Json) :
    List DiffEntry :=
  if strEndsWith k ".content" then contentDiff loads k lv rv
  else plainDiff k lv rv

/-- The list `diffs` accumulated by `_print_diff` over the sorted union of
the keys of the two flattened specs. -/
def diffEntries (loads : String → Option Json) (localSpec remoteSpec : Json) :
    List DiffEntry :=
  (sortedUnion (keysOf (flatten localSpec "")) (keysOf (flatten remoteSpec ""))).flatMap fun k =>
    perKeyDiff loads k (flatGet (flatten localSpec "") k) (flatGet (flatten remoteSpec "") k)

/-- Function `_print_diff(local_spec, remote_spec)`: returns the Python return
value (`-1` when the remote spec is falsy and the diff is skipped, `0`
for no differences, otherwise the number of differing fields) together
with the list of reported differences. -/
def printDiff (loads : String → Option Json) (localSpec remoteSpec : Json) :
    Int × List DiffEntry :=
  if truthy remoteSpec = false then (-1, [])
  else
    let diffs := diffEntries loads localSpec remoteSpec
    if diffs = [] then (0, diffs) else ((diffs.length : Int), diffs)

/-- The set of dotted paths `_print_diff` reports as differing. -/
def diffPaths (loads : String → Option Json) (localSpec remoteSpec : Json) :
    List String :=
  (printDiff loads localSpec remoteSpec).2.map (·.1)

theorem flatMap_const_nil {α β : Type} (l : List α) :
    (l.flatMap fun _ => ([] : List β)) = [] := by
  induction l <;> simp_all

theorem plainDiff_self (k : String) (v : Json) : plainDiff k v v = [] := by
  simp [plainDiff]

theorem innerDiff_self (k : String) (v : Json) : innerDiff k v v = [] := by
  simp [innerDiff, flatMap_const_nil]

theorem contentDiff_self (loads : String → Option Json) (k : String) (v : Json) :
    contentDiff loads k v v = [] := by
  cases v with
  | str s =>
    simp only [contentDiff]
    generalize loads s = o
    cases o with
    | none => simp [plainDiff]
    | some li => simp [innerDiff_self]
  | null => simp [contentDiff, plainDiff]
  | bool b => simp [contentDiff, plainDiff]
  | num q => simp [contentDiff, plainDiff]
  | arr l => simp [contentDiff, plainDiff]
  | obj l => simp [contentDiff, plainDiff]

theorem perKeyDiff_self (loads : String → Option Json) (k : String) (v : Json) :
    perKeyDiff loads k v v = [] := by
  unfold perKeyDiff
  split
  · exact contentDiff_self loads k v
  · exact plainDiff_self k v

theorem plainDiff_symm (k : String) (lv rv : Json) :
    (plainDiff k lv rv).map (·.1) = (plainDiff k rv lv).map (·.1) := by
  unfold plainDiff
  by_cases h : lv = rv
  · simp [h]
  · rw [if_neg h, if_neg (fun e => h e.symm)]; rfl

theorem innerDiff_symm (k : String) (li ri : Json) :
    (innerDiff k li ri).map (·.1) = (innerDiff k ri li).map (·.1) := by
  unfold innerDiff
  rw [sortedUnion_comm, List.map_flatMap, List.map_flatMap]
  congr 1
  funext ik
  by_cases h : flatGet (flatten li "") ik = flatGet (flatten ri "") ik
  · simp [h]
  · rw [if_neg h, if_neg (fun e => h e.symm)]; rfl

theorem contentDiff_symm (loads : String → Option Json) (k : String) (lv rv : Json) :
    (contentDiff loads k lv rv).map (·.1) = (contentDiff loads k rv lv).map (·.1) := by
  cases lv <;> cases rv <;>
    try (first
      | rfl
      | (simp only [contentDiff]; exact plainDiff_symm k _ _))
  case str.str ls rs =>
    simp only [contentDiff]
    generalize loads ls = o1
    generalize loads rs = o2
    cases o1 with
    | none => cases o2 <;> exact plainDiff_symm k _ _
    | some li =>
      cases o2 with
      | none => exact plainDiff_symm k _ _
      | some ri => exact innerDiff_symm k li ri

theorem perKeyDiff_symm (loads : String → Option Json) (k : String) (lv rv : Json) :
    (perKeyDiff loads k lv rv).map (·.1) = (perKeyDiff loads k rv lv).map (·.1) := by
  unfold perKeyDiff
  split
  · exact contentDiff_symm loads k lv rv
  · exact plainDiff_symm k lv rv

theorem diffEntries_self (loads : String → Option Json) (X : Json) :
    diffEntries loads X X = [] := by
  simp only [diffEntries, perKeyDiff_self, flatMap_const_nil]

theorem printDiff_self_snd (loads : String → Option Json) (X : Json) :
    (printDiff loads X X).2 = [] := by
  unfold printDiff
  split
  · rfl
  · simp [diffEntries_self]

theorem diffEntries_symm_paths (loads : String → Option Json) (X Y : Json) :
    (diffEntries loads X Y).map (·.1) = (diffEntries loads Y X).map (·.1) := by
  unfold diffEntries
  rw [sortedUnion_comm, List.map_flatMap, List.map_flatMap]
  congr 1
  funext k
  exact perKeyDiff_symm loads k _ _

theorem printDiff_snd_of_truthy (loads : String → Option Json) (l r : Json)
    (h : truthy r = true) : (printDiff loads l r).2 = diffEntries loads l r := by
  unfold printDiff
  rw [if_neg (by simp [h])]
  show (if diffEntries loads l r = [] then ((0 : Int), diffEntries loads l r)
        else ((diffEntries loads l r).length, diffEntries loads l r)).2 = _
  split <;> rfl

theorem diffPaths_symm_of_truthy (loads : String → Option Json) (X Y : Json)
    (h : truthy X = truthy Y) : diffPaths loads X Y = diffPaths loads Y X := by
  cases hTY : truthy Y with
  | false =>
    have hTX : truthy X = false := by rw [h, hTY]
    unfold diffPaths printDiff
    rw [if_pos hTY, if_pos hTX]
  | true =>
    have hTX : truthy X = true := by rw [h, hTY]
    unfold diffPaths
    rw [printDiff_snd_of_truthy loads X Y hTY, printDiff_snd_of_truthy loads Y X hTX]
    exact diffEntries_symm_paths loads X Y

/-- C1 (amended): for every JSON value `X` and every behaviour of
`json.loads`, `_print_diff(X, X)` reports an empty list of differences;
and for every pair `X, Y` whose Python truthiness agrees (in particular
any two non-empty documents), the dotted paths reported as differing by
`_print_diff(X, Y)` are exactly those reported by `_print_diff(Y, X)`.
(The truthiness proviso is forced: when exactly one of the two documents
is falsy, one direction returns `-1` and reports nothing while the other
direction reports every field, see the counterexample.) -/
theorem printDiff_refl_and_paths_symm :
    (∀ (loads : String → Option Json) (X : Json), (printDiff loads X X).2 = []) ∧
    (∀ (loads : String → Option Json) (X Y : Json), truthy X = truthy Y →
      diffPaths loads X Y = diffPaths loads Y X) :=
  ⟨printDiff_self_snd, fun loads X Y h => diffPaths_symm_of_truthy loads X Y h⟩

/-- Witness for the C1 theorem at concrete documents `{"a": 1}` and
`{"b": 2}` with a `loads` that always fails. -/
theorem printDiff_refl_and_paths_symm_witness :
    truthy (Json.obj [("a", Json.num 1)]) = truthy (Json.obj [("b", Json.num 2)]) ∧
    diffPaths (fun _ => none) (Json.obj [("a", Json.num 1)]) (Json.obj [("b", Json.num 2)])
      = diffPaths (fun _ => none) (Json.obj [("b", Json.num 2)]) (Json.obj [("a", Json.num 1)]) :=
  ⟨by decide,
   printDiff_refl_and_paths_symm.2 (fun _ => none)
     (Json.obj [("a", Json.num 1)]) (Json.obj [("b", Json.num 2)]) (by decide)⟩

/-- C1 counterexample: the claim as stated (path symmetry for EVERY pair
of JSON values) is false.  At `X = {"a": 1}` and `Y = {}` the call
`_print_diff(X, Y)` hits the falsy-remote guard, returns `-1` and
reports no paths, while `_print_diff(Y, X)` reports the path `a`.
(`loads` is never consulted on these inputs since no key ends in
`.content`.) -/
theorem printDiff_paths_symm_counterexample :
    ¬ ((∀ (loads : String → Option Json) (X : Json), (printDiff loads X X).2 = []) ∧
       (∀ (loads : String → Option Json) (X Y : Json),
         diffPaths loads X Y = diffPaths loads Y X)) := by
  intro hAll
  exact absurd (hAll.2 (fun _ => none) (Json.obj [("a", Json.num 1)]) (Json.obj []))
    (by decide)

/-! ### `build_spec` of `scripts/dataworks_client.py` -/

/-- Model of `config.get(k, default)` on the configuration dictionary. -/
def cfgGet (config : List (String × Json)) (k : String) (d : Json) : Json :=
  dictGetD config k d

/-- A single quote character, kept out of string literals. -/
def squote : String := String.singleton (Char.ofNat 39)

/-- The partition expression over the bizdate scheduling variable: the
text pt= followed by the quoted dollar-brace bizdate placeholder. -/
def pt_bizdate : String := "pt=" ++ squote ++ "$" ++ "\x7b" ++ "bizdate" ++ "\x7d" ++ squote

/-- Minimal model of `json.dumps` string escaping (quotes and backslashes). -/
def escChar (c : Char) : List Char :=
  if c = Char.ofNat 34 then [Char.ofNat 92, Char.ofNat 34]
  else if c = Char.ofNat 92 then [Char.ofNat 92, Char.ofNat 92]
  else [c]

def quoteStr (s : String) : String :=
  String.singleton (Char.ofNat 34) ++ String.mk (s.data.flatMap escChar) ++
    String.singleton (Char.ofNat 34)

mutual

/-- Model of `json.dumps(..., ensure_ascii=False)`: the serialized JSON
text of a document.  (No theorem relies on the exact rendering; it is
here so that `build_spec` can embed `di_job_content` as the nested
`content` string exactly as the source does.) -/
def dumps : Json → String
  | .null => "null"
  | .bool true => "true"
  | .bool false => "false"
  | .num q => if q.den = 1 then toString q.num else toString q
  | .str s => quoteStr s
  | .arr elems => "[" ++ dumpsElems elems ++ "]"
  | .obj fields => "\x7b" ++ dumpsFields fields ++ "\x7d"

def dumpsElems : List Json → String
  | [] => ""
  | [x] => dumps x
  | x :: y :: rest => dumps x ++ ", " ++ dumpsElems (y :: rest)

def dumpsFields : List (String × Json) → String
  | [] => ""
  | [(k, v)] => quoteStr k ++ ": " ++ dumps v
  | (k, v) :: p :: rest => quoteStr k ++ ": " ++ dumps v ++ ", " ++ dumpsFields (p :: rest)

end

/-- Model of Python `str(...)` on the JSON values that can appear as
`config.get("script_cu", "0.25")`. -/
def pyStr : Json → String
  | .str s => s
  | .num q => if q.den = 1 then toString q.num else toString q
  | .bool true => "True"
  | .bool false => "False"
  | .null => "None"
  | j => dumps j

/-- The `parameter` dictionary of the reader step built by `build_spec`. -/
def reader_parameter (config : List (String × Json)) : List (String × Json) :=
  [("path", jsonGetD (cfgGet config "reader" (.obj [])) "path" (.str "")),
   ("envType", jsonGetD (cfgGet config "reader" (.obj [])) "envType" (.num 1)),
   ("datasource", jsonGetD (cfgGet config "reader" (.obj [])) "datasource" (.str "")),
   ("column", jsonGetD (cfgGet config "reader" (.obj [])) "column" (.arr [])),
   ("fileFormat", jsonGetD (cfgGet config "reader" (.obj [])) "fileFormat" (.str "parquet"))]

/-- The `parameter` dictionary of the writer step built by `build_spec`. -/
def writer_parameter (config : List (String × Json)) : List (String × Json) :=
  [("partition", jsonGetD (cfgGet config "writer" (.obj [])) "partition" (.str "")),
   ("truncate", jsonGetD (cfgGet config "writer" (.obj [])) "truncate" (.bool false)),
   ("envType", jsonGetD (cfgGet config "writer" (.obj [])) "envType" (.num 1)),
   ("datasource", jsonGetD (cfgGet config "writer" (.obj [])) "datasource" (.str "")),
   ("isSupportThreeModel",
     jsonGetD (cfgGet config "writer" (.obj [])) "isSupportThreeModel" (.bool false)),
   ("tunnelQuota", jsonGetD (cfgGet config "writer" (.obj [])) "tunnelQuota" (.str "default")),
   ("column", jsonGetD (cfgGet config "writer" (.obj [])) "column" (.arr [])),
   ("emptyAsNull", jsonGetD (cfgGet config "writer" (.obj [])) "emptyAsNull" (.bool false)),
   ("tableComment", jsonGetD (cfgGet config "writer" (.obj [])) "tableComment" (.str "null")),
   ("consistencyCommit",
     jsonGetD (cfgGet config "writer" (.obj [])) "consistencyCommit" (.bool true)),
   ("table", jsonGetD (cfgGet config "writer" (.obj [])) "table" (.str ""))]

/-- The inner data-integration job document `di_job_content` of `build_spec`. -/
def di_job_content (config : List (String × Json)) : Json :=
  .obj
    [("extend", .obj
      [("mode", .str "wizard"),
       ("resourceGroup", cfgGet config "resource_group" (.str "")),
       ("oneStopPageNum", cfgGet config "oneStopPageNum" (.num 2)),
       ("cu", cfgGet config "cu" (.num (mkRat 1 2)))]),
     ("transform", cfgGet config "transform" (.bool false)),
     ("type", .str "job"),
     ("version", .str "2.0"),
     ("steps", .arr
       [.obj [("stepType", .str "oss"), ("copies", .num 1),
              ("parameter", .obj (reader_parameter config)),
              ("name", .str "Reader"), ("category", .str "reader")],
        .obj [("stepType", .str "odps"), ("copies", .num 1),
              ("parameter", .obj (writer_parameter config)),
              ("name", .str "Writer"), ("category", .str "writer")]]),
     ("order", .obj [("hops", cfgGet config "hops" (.arr []))]),
     ("setting", .obj
       [("errorLimit", .obj [("record", .str "0")]),
        ("locale", .str "zh_CN"),
        ("speed", .obj [("throttle", .bool false), ("concurrent", .num 1)])])]

/-- The `script_content` dictionary of `build_spec` (its `content` key
holds the JSON-dumped `di_job_content`). -/
def script_content (config : List (String × Json)) : List (String × Json) :=
  [("path", cfgGet config "node_name" (.str "")),
   ("language", .str "json"),
   ("runtime", .obj
     [("command", .str "DI"),
      ("commandTypeId", cfgGet config "script_commandTypeId" (.num 23)),
      ("cu", .str (pyStr (cfgGet config "script_cu" (.str "0.25"))))]),
   ("content", .str (dumps (di_job_content config)))]
  ++ (if hasKey config "parameters" then [("parameters", cfgGet config "parameters" .null)]
      else [])

/-- The `trigger_config` dictionary of `build_spec`. -/
def trigger_config (config : List (String × Json)) : List (String × Json) :=
  [("type", .str "Scheduler"),
   ("cron", cfgGet config "cron" (.str "00 00 00-23/1 * * ?")),
   ("startTime", cfgGet config "startTime" (.str "1970-01-01 00:00:00")),
   ("endTime", cfgGet config "endTime" (.str "9999-01-01 00:00:00")),
   ("timezone", cfgGet config "timezone" (.str "Asia/Shanghai")),
   ("delaySeconds", cfgGet config "delaySeconds" (.num 0))]
  ++ (if hasKey config "cycleType" then [("cycleType", cfgGet config "cycleType" .null)]
      else [])

/-- The `runtime_resource` dictionary of `build_spec`. -/
def runtime_resource (config : List (String × Json)) : List (String × Json) :=
  [("resourceGroup", cfgGet config "resource_group" (.str ""))]
  ++ (if hasKey config "resourceGroupId"
      then [("resourceGroupId", cfgGet config "resourceGroupId" .null)] else [])
  ++ (if hasKey config "resourceGroupName"
      then [("resourceGroupName", cfgGet config "resourceGroupName" .null)] else [])

/-- The `node_def` dictionary of `build_spec`. -/
def node_def (config : List (String × Json)) : Json :=
  .obj
    ([("recurrence", .str "Normal"),
      ("maxInternalConcurrency", cfgGet config "maxInternalConcurrency" (.num 0)),
      ("timeout", cfgGet config "timeout" (.num 0)),
      ("timeoutUnit", cfgGet config "timeoutUnit" (.str "HOURS")),
      ("instanceMode", cfgGet config "instanceMode" (.str "Immediately")),
      ("rerunMode", cfgGet config "rerunMode" (.str "Allowed")),
      ("rerunTimes", cfgGet config "rerunTimes" (.num 0)),
      ("rerunInterval", cfgGet config "rerunInterval" (.num 180000)),
      ("autoParse", cfgGet config "autoParse" (.bool false)),
      ("script", .obj (script_content config)),
      ("trigger", .obj (trigger_config config)),
      ("runtimeResource", .obj (runtime_resource config)),
      ("name", cfgGet config "node_name" (.str "")),
      ("owner", cfgGet config "owner" (.str ""))]
     ++ (if hasKey config "metadata" then [("metadata", cfgGet config "metadata" .null)]
         else []))

/-- The outer `spec_dict` document of `build_spec`. -/
def spec_dict (config : List (String × Json)) : Json :=
  .obj
    [("version", .str "1.1.0"),
     ("kind", .str "CycleWorkflow"),
     ("spec", .obj
       [("nodes", .arr [node_def config]),
        ("flow",
          if truthy (cfgGet config "depends" .null) then
            .arr [.obj [("depends", cfgGet config "depends" (.arr []))]]
          else .arr [])])]

/-- Function `build_spec(config)`: the JSON string handed to `CreateNodeRequest.spec`. -/
def build_spec (config : List (String × Json)) : String :=
  dumps (spec_dict config)

/-- The list of steps of the generated data-integration job. -/
def diSteps (config : List (String × Json)) : List Json :=
  match jsonGetD (di_job_content config) "steps" (.arr []) with
  | .arr steps => steps
  | _ => []

/-- A `task-config.json` describing one table named `t1` with format
`parquet` and partition `pt` (the partition field of such a configuration
is the partition expression over the `bizdate` scheduling variable). -/
def cfgT1 : List (String × Json) :=
  [("node_name", .str "t1"),
   ("resource_group", .str "rg"),
   ("reader", .obj [("path", .str "oss://bucket/t1/"), ("datasource", .str "oss_ds"),
                    ("fileFormat", .str "parquet")]),
   ("writer", .obj [("table", .str "t1"), ("partition", .str pt_bizdate),
                    ("datasource", .str "odps_ds")])]

/-- C2: for the configuration describing one table named `t1` with format
`parquet` and partition `pt`, the writer step of the generated node
specification carries the parameters `"table": "t1"` and
the partition expression `pt_bizdate` (quoted dollar-brace bizdate
placeholder), and the generated
spec embeds exactly this job document as the `content` string of its
script block. -/
theorem writer_step_params_t1 :
    (∃ step ∈ diSteps cfgT1,
      jsonGetD step "category" .null = .str "writer" ∧
      jsonGetD (jsonGetD step "parameter" .null) "table" .null = .str "t1" ∧
      jsonGetD (jsonGetD step "parameter" .null) "partition" .null = .str pt_bizdate) ∧
    dictGetD (script_content cfgT1) "content" .null = .str (dumps (di_job_content cfgT1)) := by
  constructor
  · decide
  · rfl

/-! ### `_get_remote_spec` and `update_node` of `scripts/dataworks_client.py` -/

/-- Function `_get_remote_spec`: the `GetNode` call is an oracle
`fetch : Except Unit (Option String)` — `.error` models a raised SDK
exception (caught, warning printed, `{}` returned), `.ok none` models a
response whose node or spec field is falsy, and `.ok (some s)` a
successfully returned spec string, which is then parsed with
`json.loads` (`loads s = none` models a parse error raised and caught
inside the same `try`, giving `{}`). -/
def get_remote_spec (loads : String → Option Json)
    (fetch : Except Unit (Option String)) : Json :=
  match fetch with
  | .error _ => .obj []
  | .ok none => .obj []
  | .ok (some s) =>
    match loads s with
    | some j => j
    | none => .obj []

/-- Whether `update_node` issues the `UpdateNode` request, and with which
spec document.  The function raises on API errors after issuing the call;
only the issue/skip decision is modelled. -/
inductive UpdateDecision where
  | skip : UpdateDecision
  | callUpdate (spec : Json) : UpdateDecision
deriving DecidableEq

/-- Function `update_node`: build the local spec (`json.loads(build_spec(config))`
re-parses the document `build_spec` serializes, so the local spec is
`spec_dict config` itself), fetch the remote spec, print the diff, and
skip the `UpdateNode` call exactly when `_print_diff` returned `0`. -/
def update_node (loads : String → Option Json) (config : List (String × Json))
    (fetch : Except Unit (Option String)) : UpdateDecision :=
  if (printDiff loads (spec_dict config) (get_remote_spec loads fetch)).1 = 0 then .skip
  else .callUpdate (spec_dict config)

theorem printDiff_fst_of_no_diff (loads : String → Option Json) (l r : Json)
    (hT : truthy r = true) (hD : diffEntries loads l r = []) :
    (printDiff loads l r).1 = 0 := by
  unfold printDiff
  rw [if_neg (by simp [hT])]
  show (if diffEntries loads l r = [] then ((0 : Int), diffEntries loads l r)
        else ((diffEntries loads l r).length, diffEntries loads l r)).1 = 0
  rw [if_pos hD]

/-- C3: for every configuration and every remote spec that is
successfully fetched (a truthy document), if the flattened
field-by-field comparison of the locally built spec against the remote
spec finds no differing fields, then `update_node` skips the
`UpdateNode` call and leaves the remote node unchanged. -/
theorem update_node_skips_when_no_diff (loads : String → Option Json)
    (config : List (String × Json)) (fetch : Except Unit (Option String))
    (hT : truthy (get_remote_spec loads fetch) = true)
    (hD : diffEntries loads (spec_dict config) (get_remote_spec loads fetch) = []) :
    update_node loads config fetch = .skip := by
  unfold update_node
  rw [if_pos (printDiff_fst_of_no_diff loads _ _ hT hD)]

/-- Witness for the C3 theorem: a remote fetch that returns a string
parsing to exactly the locally built spec. -/
theorem update_node_skips_when_no_diff_witness :
    update_node (fun _ => some (spec_dict [])) [] (.ok (some "remote")) = .skip :=
  update_node_skips_when_no_diff (fun _ => some (spec_dict [])) [] (.ok (some "remote"))
    rfl (diffEntries_self (fun _ => some (spec_dict [])) (spec_dict []))

/-- C10: when the remote spec cannot be fetched (the `GetNode` call
raises) or comes back as the empty document, `_print_diff` returns `-1`
(undecidable), which `update_node` treats like a difference: it issues
the `UpdateNode` call with the locally built spec. -/
theorem update_node_updates_when_remote_empty (loads : String → Option Json)
    (config : List (String × Json)) (fetch : Except Unit (Option String))
    (h : (∃ e, fetch = .error e) ∨ get_remote_spec loads fetch = .obj []) :
    (printDiff loads (spec_dict config) (get_remote_spec loads fetch)).1 = -1 ∧
    update_node loads config fetch = .callUpdate (spec_dict config) := by
  have hT : truthy (get_remote_spec loads fetch) = false := by
    rcases h with ⟨e, he⟩ | he
    · rw [he]; rfl
    · rw [he]; rfl
  have hFst : (printDiff loads (spec_dict config) (get_remote_spec loads fetch)).1 = -1 := by
    unfold printDiff
    rw [if_pos hT]
  refine ⟨hFst, ?_⟩
  unfold update_node
  rw [if_neg (by rw [hFst]; decide)]

/-- Witness for the C10 theorem: the `GetNode` call raises. -/
theorem update_node_updates_when_remote_empty_witness :
    (printDiff (fun _ => none) (spec_dict []) (get_remote_spec (fun _ => none) (.error ()))).1
      = -1 ∧
    update_node (fun _ => none) [] (.error ()) = .callUpdate (spec_dict []) :=
  update_node_updates_when_remote_empty (fun _ => none) [] (.error ()) (.inl ⟨(), rfl⟩)

/-! ### `scripts/config_merger.py`

File contents are modelled as parsed JSON objects: `none` means the file
is absent.  `_load_json_silently` returns `{}` both for an absent and for
an unreadable `global.json`, so `none` covers both for the override file;
the scripts store objects in these files, so objects are assumed. -/

structure ProjectDir where
  taskConfig : Option (List (String × Json))
  globalJson : Option (List (String × Json))

/-- Python dictionary item assignment `d[k] = v`: replace the value of an
existing key in place, append a new key at the end. -/
def setKey : List (String × Json) → String → Json → List (String × Json)
  | [], k, v => [(k, v)]
  | (k1, v1) :: rest, k, v =>
    if k1 = k then (k, v) :: rest else (k1, v1) :: setKey rest k v

/-- Model of `config[outer][inner] = v` where `config[outer]` is an object
(the merger writes under `"reader"`/`"writer"`, which hold objects). -/
def setNested (cfg : List (String × Json)) (outerK innerK : String) (v : Json) :
    List (String × Json) :=
  match lastLookup cfg outerK with
  | some (.obj inner) => setKey cfg outerK (.obj (setKey inner innerK v))
  | _ => cfg

/-- Model of the `task` section lookup of `load_merged_node_config` (the value
under `"task"`, when present, is an object). -/
def task_global_of (globalJson : Option (List (String × Json))) : List (String × Json) :=
  match lastLookup (globalJson.getD []) "task" with
  | some (.obj kvs) => kvs
  | _ => []

/-- The fixed set of override keys `load_merged_node_config` recognizes. -/
def recognized_task_keys : List String :=
  ["node_name", "cron", "reader_datasource", "reader_path",
   "writer_datasource", "writer_table", "writer_partition"]

/-- The sequence of `if key in task_global` overrides of
`load_merged_node_config`, applied to the base template in source order. -/
def apply_task_overrides (taskGlobal config : List (String × Json)) :
    List (String × Json) :=
  let c1 := match lastLookup taskGlobal "node_name" with
            | some v => setKey config "node_name" v
            | none => config
  let c2 := match lastLookup taskGlobal "cron" with
            | some v => setKey c1 "cron" v
            | none => c1
  let c3 := match lastLookup taskGlobal "reader_datasource" with
            | some v => if hasKey c2 "reader" then setNested c2 "reader" "datasource" v
                        else c2
            | none => c2
  let c4 := match lastLookup taskGlobal "reader_path" with
            | some v => if hasKey c3 "reader" then setNested c3 "reader" "path" v else c3
            | none => c3
  let c5 := match lastLookup taskGlobal "writer_datasource" with
            | some v => if hasKey c4 "writer" then setNested c4 "writer" "datasource" v
                        else c4
            | none => c4
  let c6 := match lastLookup taskGlobal "writer_table" with
            | some v => if hasKey c5 "writer" then setNested c5 "writer" "table" v else c5
            | none => c5
  let c7 := match lastLookup taskGlobal "writer_partition" with
            | some v => if hasKey c6 "writer" then setNested c6 "writer" "partition" v
                        else c6
            | none => c6
  c7

/-- Function `load_merged_node_config(project_dir)`: read the mandatory
`task-config.json` base template (raising `FileNotFoundError` when it is
absent), overlay the recognized keys of the `task` section of an optional
`global.json` (`if not task_global: return config`), and return the
merged mapping. -/
def load_merged_node_config : ProjectDir → Except String (List (String × Json))
  | ⟨none, _⟩ => .error "Missing required base template: task-config.json"
  | ⟨some config, globalJson⟩ =>
    if (task_global_of globalJson).isEmpty then .ok config
    else .ok (apply_task_overrides (task_global_of globalJson) config)

/-- C4: merging an override file none of whose recognized override keys
is present (including an absent or empty override file) returns exactly
the base template; and the merge fails with an error exactly when the
mandatory base template file is absent. -/
theorem merge_no_override_identity :
    (∀ (dir : ProjectDir) (base : List (String × Json)),
      dir.taskConfig = some base →
      (∀ k ∈ recognized_task_keys, lastLookup (task_global_of dir.globalJson) k = none) →
      load_merged_node_config dir = .ok base) ∧
    (∀ dir : ProjectDir,
      (∃ e, load_merged_node_config dir = .error e) ↔ dir.taskConfig = none) := by
  constructor
  · intro dir base hBase hk
    have h1 := hk "node_name" (by decide)
    have h2 := hk "cron" (by decide)
    have h3 := hk "reader_datasource" (by decide)
    have h4 := hk "reader_path" (by decide)
    have h5 := hk "writer_datasource" (by decide)
    have h6 := hk "writer_table" (by decide)
    have h7 := hk "writer_partition" (by decide)
    obtain ⟨tc, gj⟩ := dir
    cases tc with
    | none => exact Option.noConfusion hBase
    | some c =>
      obtain rfl : c = base := Option.some.inj hBase
      have hOv : apply_task_overrides (task_global_of gj) c = c := by
        unfold apply_task_overrides
        rw [h1, h2, h3, h4, h5, h6, h7]
      show (if (task_global_of gj).isEmpty = true then Except.ok c
            else Except.ok (apply_task_overrides (task_global_of gj) c))
           = Except.ok c
      rw [hOv]
      split <;> rfl
  · intro dir
    constructor
    · rintro ⟨e, he⟩
      obtain ⟨tc, gj⟩ := dir
      cases tc with
      | none => rfl
      | some config =>
        exfalso
        unfold load_merged_node_config at he
        split at he
        · rename_i heq
          exact Option.noConfusion (congrArg ProjectDir.taskConfig heq)
        · split at he <;> exact Except.noConfusion he
    · intro hNone
      obtain ⟨tc, gj⟩ := dir
      cases tc with
      | none => exact ⟨"Missing required base template: task-config.json", rfl⟩
      | some c => exact Option.noConfusion hNone

/-- Witness for the C4 theorem: a directory with only a base template. -/
theorem merge_no_override_identity_witness :
    load_merged_node_config ⟨some [("node_name", Json.str "n")], none⟩
      = .ok [("node_name", Json.str "n")] :=
  merge_no_override_identity.1 ⟨some [("node_name", Json.str "n")], none⟩
    [("node_name", Json.str "n")] rfl (by decide)

/-! ### `scripts/clean_mc_tables.py` -/

/-- The whitelist of tables that are never auto-deleted. -/
def WHITELIST_TABLES : List String := ["product_dim", "user_dim", "core_metrics"]

/-- What the loop body of `main` does with one listed table. -/
inductive CleanAction where
  | skipWhitelist : CleanAction
  | skipNoCreationTime : CleanAction
  | drop : CleanAction
  | dryRunReport : CleanAction
  | keepNewer : CleanAction
deriving DecidableEq

/-- The per-table decision of the cleanup loop of `main`: whitelist check
first, then the `creation_time` guard (`none` models a table whose
extended attributes carry no creation time), then the age comparison
`creation_time < threshold_date`; the drop is executed only under
`args.execute`, otherwise the table is only reported (`[DRY-RUN]`).
Times are modelled as integer timestamps. -/
def clean_table_action (executeFlag : Bool) (thresholdDate : Int)
    (tableName : String) (creationTime : Option Int) : CleanAction :=
  if tableName ∈ WHITELIST_TABLES then .skipWhitelist
  else
    match creationTime with
    | none => .skipNoCreationTime
    | some t =>
      if t < thresholdDate then
        if executeFlag then .drop else .dryRunReport
      else .keepNewer

/-- C5: a whitelisted table never reaches the drop operation no matter
its creation time or the flags; a non-whitelisted table older than the
threshold is dropped exactly when `--execute` was supplied, and with the
flag absent it is only reported. -/
theorem whitelist_safety_and_execute_gate :
    (∀ (executeFlag : Bool) (thresholdDate : Int) (name : String)
       (creationTime : Option Int),
      name ∈ WHITELIST_TABLES →
      clean_table_action executeFlag thresholdDate name creationTime = .skipWhitelist ∧
      clean_table_action executeFlag thresholdDate name creationTime ≠ .drop) ∧
    (∀ (executeFlag : Bool) (thresholdDate t : Int) (name : String),
      name ∉ WHITELIST_TABLES → t < thresholdDate →
      (clean_table_action executeFlag thresholdDate name (some t) = .drop
        ↔ executeFlag = true) ∧
      (executeFlag = false →
        clean_table_action executeFlag thresholdDate name (some t) = .dryRunReport)) := by
  constructor
  · intro executeFlag thresholdDate name creationTime hW
    unfold clean_table_action
    rw [if_pos hW]
    exact ⟨rfl, by decide⟩
  · intro executeFlag thresholdDate t name hW hAge
    unfold clean_table_action
    rw [if_neg hW]
    constructor
    · cases executeFlag <;> simp [hAge]
    · intro hE
      subst hE
      simp [hAge]

/-- Witness for the C5 theorem: `core_metrics` created 60 days ago with a
30-day threshold is never dropped even with `--execute`; `tmp_x` created
31 days ago is dropped with `--execute` and only reported without it. -/
theorem whitelist_safety_and_execute_gate_witness :
    clean_table_action true (-30) "core_metrics" (some (-60)) ≠ .drop ∧
    clean_table_action true (-30) "tmp_x" (some (-31)) = .drop ∧
    clean_table_action false (-30) "tmp_x" (some (-31)) = .dryRunReport :=
  ⟨(whitelist_safety_and_execute_gate.1 true (-30) "core_metrics" (some (-60))
      (by decide)).2,
   (whitelist_safety_and_execute_gate.2 true (-30) (-31) "tmp_x"
      (by decide) (by decide)).1.mpr rfl,
   (whitelist_safety_and_execute_gate.2 false (-30) (-31) "tmp_x"
      (by decide) (by decide)).2 rfl⟩

/-! ### `scripts/process_project.py`

The `DataWorksClient` methods the loop calls are modelled as oracles
indexed by the iteration (each call goes to the live API and may answer
differently per table): `.error` models a raised exception,
`create_sync_task` answering `0` models the falsy `file_id` branch. -/

structure ClientBehavior where
  jobExists : Nat → Except Unit Bool
  ensureOss : Nat → Except Unit Unit
  ensureOdps : Nat → Except Unit Unit
  generateTaskContent : Nat → Except Unit Unit
  createSyncTask : Nat → Except Unit Nat
  submitFile : Nat → Except Unit Unit
  deployFile : Nat → Except Unit Unit

inductive TableOutcome where
  | created : TableOutcome
  | skipped : TableOutcome
  | failed : TableOutcome
deriving DecidableEq

/-- The body of the `for i, table in enumerate(tables)` loop of
`process_project`: skip when the job exists, fail on a raised exception
or a falsy `file_id` from `create_sync_task`, otherwise create, submit
and deploy. -/
def table_outcome (client : ClientBehavior) (i : Nat) : TableOutcome :=
  match client.jobExists i with
  | .error _ => .failed
  | .ok true => .skipped
  | .ok false =>
    match client.ensureOss i with
    | .error _ => .failed
    | .ok _ =>
      match client.ensureOdps i with
      | .error _ => .failed
      | .ok _ =>
        match client.generateTaskContent i with
        | .error _ => .failed
        | .ok _ =>
          match client.createSyncTask i with
          | .error _ => .failed
          | .ok fileId =>
            if fileId = 0 then .failed
            else
              match client.submitFile i with
              | .error _ => .failed
              | .ok _ =>
                match client.deployFile i with
                | .error _ => .failed
                | .ok _ => .created

/-- The `stats` dictionary of `process_project`. -/
structure Stats where
  created : Nat
  skipped : Nat
  failed : Nat
deriving DecidableEq

/-- Model of the counter increment for the outcome of one table. -/
def bump (s : Stats) : TableOutcome → Stats
  | .created => ⟨s.created + 1, s.skipped, s.failed⟩
  | .skipped => ⟨s.created, s.skipped + 1, s.failed⟩
  | .failed => ⟨s.created, s.skipped, s.failed + 1⟩

/-- Function `process_project(client, project_dir)`: `none` models an absent
`config.json` (early return `{"created": 0, "skipped": 0, "failed": 1}`),
`some tables` the `Tables` list of the parsed configuration; the loop
visits every table in order, each iteration bumping exactly one counter
(the `except` arm turns a raised error into `failed += 1; continue`). -/
def process_project (client : ClientBehavior) (config : Option (List String)) : Stats :=
  match config with
  | none => ⟨0, 0, 1⟩
  | some tables =>
    (List.range tables.length).foldl (fun s i => bump s (table_outcome client i)) ⟨0, 0, 0⟩

/-- The returned Python dictionary of `process_project`. -/
def stats_dict (s : Stats) : List (String × Nat) :=
  [("created", s.created), ("skipped", s.skipped), ("failed", s.failed)]

theorem foldl_bump (f : Nat → TableOutcome) (l : List Nat) (s : Stats) :
    l.foldl (fun acc i => bump acc (f i)) s =
      ⟨s.created + (l.countP fun i => decide (f i = .created)),
       s.skipped + (l.countP fun i => decide (f i = .skipped)),
       s.failed + (l.countP fun i => decide (f i = .failed))⟩ := by
  induction l generalizing s with
  | nil => simp
  | cons x xs ih =>
    rw [List.foldl_cons, ih]
    cases h : f x <;> simp [bump, h, List.countP_cons] <;> omega

/-- C6 (amended): for every client behaviour and every table list — in
particular when some iterations raise — the loop still visits every
table, each table contributes to exactly one of the counters, and the
returned result carries the aggregate counts `created`, `skipped` and
`failed` (there is no `updated` counter in `process_project`). -/
theorem process_project_aggregate_counts
    (client : ClientBehavior) (tables : List String) :
    process_project client (some tables) =
      ⟨(List.range tables.length).countP (fun i => decide (table_outcome client i = .created)),
       (List.range tables.length).countP (fun i => decide (table_outcome client i = .skipped)),
       (List.range tables.length).countP (fun i => decide (table_outcome client i = .failed))⟩
    ∧ stats_dict (process_project client (some tables)) =
      [("created", (process_project client (some tables)).created),
       ("skipped", (process_project client (some tables)).skipped),
       ("failed", (process_project client (some tables)).failed)] := by
  constructor
  · show (List.range tables.length).foldl
        (fun s i => bump s (table_outcome client i)) ⟨0, 0, 0⟩ = _
    rw [foldl_bump (table_outcome client) (List.range tables.length) ⟨0, 0, 0⟩]
    simp
  · rfl

/-- C6 counterexample: the claim promises an `updated` aggregate count,
but the dictionary `process_project` returns has no `updated` key — only
`created`, `skipped` and `failed` — even in a run where the first
first `job_exists` call raises and the second table is still processed
(`failed = 2` here shows the loop continued past the error). -/
theorem process_project_no_updated_count :
    (stats_dict (process_project
        ⟨fun _ => .error (), fun _ => .ok (), fun _ => .ok (), fun _ => .ok (),
         fun _ => .ok 1, fun _ => .ok (), fun _ => .ok ()⟩
        (some ["t1", "t2"]))).lookup "updated" = none ∧
    (stats_dict (process_project
        ⟨fun _ => .error (), fun _ => .ok (), fun _ => .ok (), fun _ => .ok (),
         fun _ => .ok 1, fun _ => .ok (), fun _ => .ok ()⟩
        (some ["t1", "t2"]))).lookup "failed" = some 2 := by
  constructor <;> rfl

theorem countP_outcomes (f : Nat → TableOutcome) (l : List Nat) :
    (l.countP fun i => decide (f i = .created)) +
    (l.countP fun i => decide (f i = .skipped)) +
    (l.countP fun i => decide (f i = .failed)) = l.length := by
  induction l with
  | nil => rfl
  | cons x xs ih =>
    cases h : f x <;> simp [List.countP_cons, h] <;> omega

/-- C9: with a readable `config.json`, every table bumps exactly one of
the three counters, so `created + skipped + failed` equals the number of
tables; with `config.json` absent the result is
`created = 0, skipped = 0, failed = 1`. -/
theorem process_project_counts_partition :
    (∀ (client : ClientBehavior) (tables : List String),
      (process_project client (some tables)).created
        + (process_project client (some tables)).skipped
        + (process_project client (some tables)).failed = tables.length) ∧
    (∀ client : ClientBehavior, process_project client none = ⟨0, 0, 1⟩) := by
  constructor
  · intro client tables
    have h : process_project client (some tables) =
        ⟨((List.range tables.length).countP fun i => decide (table_outcome client i = .created)),
         ((List.range tables.length).countP fun i => decide (table_outcome client i = .skipped)),
         ((List.range tables.length).countP fun i => decide (table_outcome client i = .failed))⟩ := by
      show (List.range tables.length).foldl
          (fun s i => bump s (table_outcome client i)) ⟨0, 0, 0⟩ = _
      rw [foldl_bump (table_outcome client) (List.range tables.length) ⟨0, 0, 0⟩]
      simp
    rw [h]
    show ((List.range tables.length).countP _) + _ + _ = _
    rw [countP_outcomes (table_outcome client) (List.range tables.length),
      List.length_range]
  · intro client
    rfl

/-! ### `scripts/publish_node.py`

The `GetDeployment` response is an oracle `statusAt : Nat → String`
mapping the `elapsed` value of an iteration to the status string that
poll observes.  The `while elapsed < POLL_TIMEOUT_SEC` loop is written
with an explicit iteration budget `fuel`; started with
`POLL_TIMEOUT_SEC / POLL_INTERVAL_SEC` it is exactly the source loop,
because `elapsed` grows by `POLL_INTERVAL_SEC` from `0` per iteration,
so the guard fails precisely when the budget runs out. -/

def POLL_INTERVAL_SEC : Nat := 10

def POLL_TIMEOUT_SEC : Nat := 300

inductive PollResult where
  | success : PollResult
  | failExit : PollResult
  | timeoutExit : PollResult
deriving DecidableEq

/-- The statuses the loop treats as deployment failure. -/
def failure_statuses : List String := ["Fail", "Rejected", "Abort"]

/-- One execution of the poll loop body, returning the result together
with the number of `GetDeployment` calls made. -/
def wfd_loop (statusAt : Nat → String) : Nat → Nat → PollResult × Nat
  | 0, _ => (.timeoutExit, 0)
  | fuel + 1, elapsed =>
    if elapsed < POLL_TIMEOUT_SEC then
      if statusAt elapsed = "Success" then (.success, 1)
      else if statusAt elapsed ∈ failure_statuses then (.failExit, 1)
      else
        let r := wfd_loop statusAt fuel (elapsed + POLL_INTERVAL_SEC)
        (r.1, r.2 + 1)
    else (.timeoutExit, 0)

/-- Function `wait_for_deployment`: poll from `elapsed = 0` until `Success`, a
failure status, or the timeout. -/
def wait_for_deployment (statusAt : Nat → String) : PollResult × Nat :=
  wfd_loop statusAt (POLL_TIMEOUT_SEC / POLL_INTERVAL_SEC) 0

/-- The process exit the poll outcome causes: `none` when
`wait_for_deployment` returns normally (deployment succeeded), `some 1`
for the `sys.exit(1)` of a failure status or of the timeout. -/
def poll_exit : PollResult → Option Nat
  | .success => none
  | .failExit => some 1
  | .timeoutExit => some 1

theorem wfd_loop_polls_le (statusAt : Nat → String) (fuel elapsed : Nat) :
    (wfd_loop statusAt fuel elapsed).2 ≤ fuel := by
  induction fuel generalizing elapsed with
  | zero => exact Nat.le_refl 0
  | succ n ih =>
    unfold wfd_loop
    split
    · split
      · exact Nat.le_add_left 1 n
      · split
        · exact Nat.le_add_left 1 n
        · exact Nat.succ_le_succ (ih _)
    · exact Nat.zero_le _

theorem wfd_loop_no_success (statusAt : Nat → String)
    (h : ∀ k, k < POLL_TIMEOUT_SEC / POLL_INTERVAL_SEC →
      statusAt (POLL_INTERVAL_SEC * k) ≠ "Success") :
    ∀ (fuel k : Nat), (wfd_loop statusAt fuel (POLL_INTERVAL_SEC * k)).1 ≠ .success := by
  intro fuel
  induction fuel with
  | zero => intro k; exact fun e => PollResult.noConfusion e
  | succ n ih =>
    intro k
    unfold wfd_loop
    split
    case isTrue hLt =>
      have hk : k < POLL_TIMEOUT_SEC / POLL_INTERVAL_SEC := by
        simp only [POLL_INTERVAL_SEC, POLL_TIMEOUT_SEC] at hLt ⊢
        omega
      rw [if_neg (h k hk)]
      split
      · exact fun e => PollResult.noConfusion e
      · show (wfd_loop statusAt n (POLL_INTERVAL_SEC * k + POLL_INTERVAL_SEC)).1 ≠ .success
        have : POLL_INTERVAL_SEC * k + POLL_INTERVAL_SEC = POLL_INTERVAL_SEC * (k + 1) := by
          simp only [POLL_INTERVAL_SEC]; omega
        rw [this]
        exact ih (k + 1)
    case isFalse hLt => exact fun e => PollResult.noConfusion e

/-- C7: the poll loop makes at most
`POLL_TIMEOUT_SEC / POLL_INTERVAL_SEC` (= 30) `GetDeployment` calls, so
it waits at most `POLL_TIMEOUT_SEC` seconds; when the status never
reaches `Success` within that bound — whether it stays pending until the
timeout or reaches a failure status — the process exits with status `1`;
and any failure-status or timeout outcome is a `sys.exit(1)`. -/
theorem wait_for_deployment_bounded_and_nonzero (statusAt : Nat → String) :
    (wait_for_deployment statusAt).2 ≤ POLL_TIMEOUT_SEC / POLL_INTERVAL_SEC ∧
    ((∀ k, k < POLL_TIMEOUT_SEC / POLL_INTERVAL_SEC →
        statusAt (POLL_INTERVAL_SEC * k) ≠ "Success") →
      poll_exit (wait_for_deployment statusAt).1 = some 1) ∧
    (∀ r : PollResult, r = .failExit ∨ r = .timeoutExit → poll_exit r = some 1) := by
  refine ⟨wfd_loop_polls_le statusAt _ 0, ?_, ?_⟩
  · intro h
    have hNS : (wait_for_deployment statusAt).1 ≠ .success := by
      have := wfd_loop_no_success statusAt h (POLL_TIMEOUT_SEC / POLL_INTERVAL_SEC) 0
      simpa [wait_for_deployment] using this
    cases hR : (wait_for_deployment statusAt).1 with
    | success => exact absurd hR hNS
    | failExit => rfl
    | timeoutExit => rfl
  · rintro r (rfl | rfl) <;> rfl

/-- Witness for the C7 theorem: a deployment that stays `Running`
forever times out after 30 polls and exits non-zero. -/
theorem wait_for_deployment_bounded_and_nonzero_witness :
    (wait_for_deployment (fun _ => "Running")).2 ≤ 30 ∧
    poll_exit (wait_for_deployment (fun _ => "Running")).1 = some 1 :=
  ⟨(wait_for_deployment_bounded_and_nonzero (fun _ => "Running")).1,
   (wait_for_deployment_bounded_and_nonzero (fun _ => "Running")).2.1 (by decide)⟩

/-! ### Environment-variable checks

`env : String → Option String` models `os.environ` (`none` = variable
absent).  A returned `.error 1` models `sys.exit(1)`; each connection
value is only constructed — and hence a network call only possible —
after every required variable passed its check. -/

def space_chars : List Char := [' ', '\t', '\n', '\r', '\x0b', '\x0c']

/-- Python `str.strip()` (over the ASCII whitespace Python strips). -/
def pyStrip (s : String) : String :=
  String.mk (((s.data.dropWhile (· ∈ space_chars)).reverse.dropWhile
    (· ∈ space_chars)).reverse)

/-- Function `get_env_or_fail` of `clean_mc_tables.py` / `create_table.py` /
`deploy.py`: read the variable, default `""`, strip, and `sys.exit(1)`
when the result is empty. -/
def get_env_or_fail (env : String → Option String) (name : String) : Except Nat String :=
  if pyStrip ((env name).getD "") = "" then .error 1
  else .ok (pyStrip ((env name).getD ""))

/-- The four arguments of the `ODPS(...)` constructor of
`clean_mc_tables.main`, in evaluation order. -/
structure OdpsConn where
  accessId : String
  secretAccessKey : String
  project : String
  endpointUrl : String

/-- The argument evaluation of `ODPS(access_id=..., secret_access_key=...,
project=..., endpoint=...)` in `clean_mc_tables.main`: every
`get_env_or_fail` runs before the connection object exists. -/
def clean_mc_connect (env : String → Option String) : Except Nat OdpsConn :=
  match get_env_or_fail env "ALIBABA_CLOUD_ACCESS_KEY_ID" with
  | .error e => .error e
  | .ok accessId =>
    match get_env_or_fail env "ALIBABA_CLOUD_ACCESS_KEY_SECRET" with
    | .error e => .error e
    | .ok secretAccessKey =>
      match get_env_or_fail env "MAXCOMPUTE_PROJECT" with
      | .error e => .error e
      | .ok project =>
        match get_env_or_fail env "MAXCOMPUTE_ENDPOINT" with
        | .error e => .error e
        | .ok endpointUrl => .ok ⟨accessId, secretAccessKey, project, endpointUrl⟩

/-- The authenticated SDK client configuration `create_client` of
`dataworks_client.py` builds. -/
structure DwClient where
  accessKeyId : String
  accessKeySecret : String
  apiEndpoint : String
deriving DecidableEq

/-- Function `create_client` of `dataworks_client.py`: read the credential pair
(default `""`), default the region to `cn-shanghai`, `sys.exit(1)` when
either credential is empty, and otherwise build the client with endpoint
`dataworks.<region>.aliyuncs.com`.  Note: the region is NOT checked. -/
def create_client (env : String → Option String) : Except Nat DwClient :=
  if (env "ALIBABA_CLOUD_ACCESS_KEY_ID").getD "" = ""
      ∨ (env "ALIBABA_CLOUD_ACCESS_KEY_SECRET").getD "" = "" then .error 1
  else
    .ok ⟨(env "ALIBABA_CLOUD_ACCESS_KEY_ID").getD "",
         (env "ALIBABA_CLOUD_ACCESS_KEY_SECRET").getD "",
         "dataworks." ++ (env "ALIYUN_REGION").getD "cn-shanghai" ++ ".aliyuncs.com"⟩

/-- Function `create_client` of `deploy.py`: all four variables go through
`get_env_or_fail`, then the project id is parsed as an integer. -/
def deploy_create_client (env : String → Option String) :
    Except Nat (String × String × String × Nat) :=
  match get_env_or_fail env "ALIBABA_CLOUD_ACCESS_KEY_ID" with
  | .error e => .error e
  | .ok accessKeyId =>
    match get_env_or_fail env "ALIBABA_CLOUD_ACCESS_KEY_SECRET" with
    | .error e => .error e
    | .ok accessKeySecret =>
      match get_env_or_fail env "ALIYUN_REGION" with
      | .error e => .error e
      | .ok region =>
        match get_env_or_fail env "DATAWORKS_PROJECT_ID" with
        | .error e => .error e
        | .ok pidStr =>
          match pidStr.toNat? with
          | some pid => .ok (accessKeyId, accessKeySecret, region, pid)
          | none => .error 1

theorem get_env_or_fail_error (env : String → Option String) (name : String)
    (h : pyStrip ((env name).getD "") = "") : get_env_or_fail env name = .error 1 := by
  unfold get_env_or_fail
  rw [if_pos h]

theorem get_env_or_fail_cases (env : String → Option String) (name : String) :
    get_env_or_fail env name = .error 1 ∨
    ∃ v, get_env_or_fail env name = .ok v := by
  unfold get_env_or_fail
  split
  · exact .inl rfl
  · exact .inr ⟨_, rfl⟩

/-- C8 (amended): every variable read through `get_env_or_fail` —
the credential pair, MaxCompute project and endpoint in
`clean_mc_tables.py`, and the credential pair, region and workspace id in
`deploy.py` — causes `sys.exit(1)` before any connection value exists
when it is absent or whitespace-empty; and `create_client` of
`dataworks_client.py` exits the same way when either credential is
absent or empty.  (Its region variable is the exception, see the
counterexample.) -/
theorem env_required_fail_fast :
    (∀ (env : String → Option String) (name : String),
      pyStrip ((env name).getD "") = "" → get_env_or_fail env name = .error 1) ∧
    (∀ env : String → Option String,
      (env "ALIBABA_CLOUD_ACCESS_KEY_ID").getD "" = "" ∨
      (env "ALIBABA_CLOUD_ACCESS_KEY_SECRET").getD "" = "" →
      create_client env = .error 1) ∧
    (∀ (env : String → Option String) (name : String),
      name ∈ ["ALIBABA_CLOUD_ACCESS_KEY_ID", "ALIBABA_CLOUD_ACCESS_KEY_SECRET",
              "MAXCOMPUTE_PROJECT", "MAXCOMPUTE_ENDPOINT"] →
      pyStrip ((env name).getD "") = "" → clean_mc_connect env = .error 1) ∧
    (∀ (env : String → Option String) (name : String),
      name ∈ ["ALIBABA_CLOUD_ACCESS_KEY_ID", "ALIBABA_CLOUD_ACCESS_KEY_SECRET",
              "ALIYUN_REGION", "DATAWORKS_PROJECT_ID"] →
      pyStrip ((env name).getD "") = "" → deploy_create_client env = .error 1) := by
  refine ⟨get_env_or_fail_error, ?_, ?_, ?_⟩
  · intro env h
    unfold create_client
    rw [if_pos h]
  · intro env name hMem hS
    have hF := get_env_or_fail_error env name hS
    unfold clean_mc_connect
    fin_cases hMem
    · rw [hF]
    · rcases get_env_or_fail_cases env "ALIBABA_CLOUD_ACCESS_KEY_ID" with h1 | ⟨v1, h1⟩ <;>
        rw [h1]
      rw [hF]
    · rcases get_env_or_fail_cases env "ALIBABA_CLOUD_ACCESS_KEY_ID" with h1 | ⟨v1, h1⟩ <;>
        rw [h1]
      rcases get_env_or_fail_cases env "ALIBABA_CLOUD_ACCESS_KEY_SECRET" with h2 | ⟨v2, h2⟩ <;>
        rw [h2]
      rw [hF]
    · rcases get_env_or_fail_cases env "ALIBABA_CLOUD_ACCESS_KEY_ID" with h1 | ⟨v1, h1⟩ <;>
        rw [h1]
      rcases get_env_or_fail_cases env "ALIBABA_CLOUD_ACCESS_KEY_SECRET" with h2 | ⟨v2, h2⟩ <;>
        rw [h2]
      rcases get_env_or_fail_cases env "MAXCOMPUTE_PROJECT" with h3 | ⟨v3, h3⟩ <;>
        rw [h3]
      rw [hF]
  · intro env name hMem hS
    have hF := get_env_or_fail_error env name hS
    unfold deploy_create_client
    fin_cases hMem
    · rw [hF]
    · rcases get_env_or_fail_cases env "ALIBABA_CLOUD_ACCESS_KEY_ID" with h1 | ⟨v1, h1⟩ <;>
        rw [h1]
      rw [hF]
    · rcases get_env_or_fail_cases env "ALIBABA_CLOUD_ACCESS_KEY_ID" with h1 | ⟨v1, h1⟩ <;>
        rw [h1]
      rcases get_env_or_fail_cases env "ALIBABA_CLOUD_ACCESS_KEY_SECRET" with h2 | ⟨v2, h2⟩ <;>
        rw [h2]
      rw [hF]
    · rcases get_env_or_fail_cases env "ALIBABA_CLOUD_ACCESS_KEY_ID" with h1 | ⟨v1, h1⟩ <;>
        rw [h1]
      rcases get_env_or_fail_cases env "ALIBABA_CLOUD_ACCESS_KEY_SECRET" with h2 | ⟨v2, h2⟩ <;>
        rw [h2]
      rcases get_env_or_fail_cases env "ALIYUN_REGION" with h3 | ⟨v3, h3⟩ <;>
        rw [h3]
      rw [hF]

/-- Witness for the C8 theorem: with the whole environment empty, every
modelled entry point exits with status 1. -/
theorem env_required_fail_fast_witness :
    get_env_or_fail (fun _ => none) "MAXCOMPUTE_PROJECT" = .error 1 ∧
    create_client (fun _ => none) = .error 1 ∧
    clean_mc_connect (fun _ => none) = .error 1 ∧
    deploy_create_client (fun _ => none) = .error 1 :=
  ⟨env_required_fail_fast.1 (fun _ => none) "MAXCOMPUTE_PROJECT" (by decide),
   env_required_fail_fast.2.1 (fun _ => none) (.inl rfl),
   env_required_fail_fast.2.2.1 (fun _ => none) "MAXCOMPUTE_PROJECT" (by decide) (by decide),
   env_required_fail_fast.2.2.2 (fun _ => none) "ALIYUN_REGION" (by decide) (by decide)⟩

/-- C8 counterexample: `ALIYUN_REGION` is listed as required, but
`create_client` of `dataworks_client.py` does not exit when it is
absent: with only the credential pair set it silently defaults the
region to `cn-shanghai` and returns a client, so the process proceeds to
its network calls. -/
theorem create_client_region_not_required :
    (fun name => if name = "ALIBABA_CLOUD_ACCESS_KEY_ID" then some "id"
                 else if name = "ALIBABA_CLOUD_ACCESS_KEY_SECRET" then some "sk"
                 else none : String → Option String) "ALIYUN_REGION" = none ∧
    create_client
      (fun name => if name = "ALIBABA_CLOUD_ACCESS_KEY_ID" then some "id"
                   else if name = "ALIBABA_CLOUD_ACCESS_KEY_SECRET" then some "sk"
                   else none)
      = .ok ⟨"id", "sk", "dataworks.cn-shanghai.aliyuncs.com"⟩ := by
  refine ⟨rfl, ?_⟩
  show Except.ok ⟨"id", "sk", "dataworks." ++ "cn-shanghai" ++ ".aliyuncs.com"⟩
    = Except.ok (⟨"id", "sk", "dataworks.cn-shanghai.aliyuncs.com"⟩ : DwClient)
  have : "dataworks." ++ "cn-shanghai" ++ ".aliyuncs.com"
      = "dataworks.cn-shanghai.aliyuncs.com" := by decide
  rw [this]

end DW
